import Mathlib

/-!
# baton-vmware-vcenter: access-graph construction core

A shallow embedding of `pkg/connector` (roles.go, users.go, groups.go,
resource_types.go, connector.go) together with the library calls those files
make (Go `strings`, `strconv`, `fmt.Sprintf`, and the baton-sdk constructors
for resources, entitlements and grants).

Conventions of the embedding

* Go strings are Lean `String`s.  The only byte-level operation the connector
  performs is splitting on the ASCII comma, which on valid UTF-8 coincides
  with splitting on the character `,`.
* `int32` / `int64` values are `Int`; the 32-bit range is an explicit
  hypothesis (`isInt32`) where it matters, and `ParseInt` performs the range
  check of the Go function.
* A Go call returning `(value, error)` is an `Except Error value`.  The four
  results of a builder method `(items, nextPageToken, annotations, error)` are
  the record `Result`.
* The remote vCenter / SSO endpoints are fields of `Client`: each is the
  response the remote service gives to the corresponding call.  A call that
  runs into the five second deadline of its caller answers with an error for
  which `Error.isDeadlineExceeded` holds.
* The `ctx`, `parentResourceID` and pagination token arguments of the builder
  methods are never read by the Go code and are left out.
-/

namespace connector

/-! ## Go `strings` -/

/-- Fields of a character list separated by `sep`: the first field and the
remaining ones.  There is always a first field, possibly empty. -/
def splitFields (sep : Char) : List Char → List Char × List (List Char)
  | [] => ([], [])
  | c :: cs =>
    let r := splitFields sep cs
    if c = sep then ([], r.1 :: r.2) else (c :: r.1, r.2)

/-- Go `strings.Split(s, sep)` for a one-character separator, the only way the
connector calls it.  The result has one more element than `s` has separators;
in particular `Split "" sep = [""]`. -/
def Split (s : String) (sep : Char) : List String :=
  let r := splitFields sep s.data
  String.mk r.1 :: r.2.map String.mk

/-- Go `strings.Join(elems, sep)`. -/
def Join : List String → String → String
  | [], _ => ""
  | [a], _ => a
  | a :: b :: rest, sep => a ++ sep ++ Join (b :: rest) sep

/-! ## Go `strconv` and `%d` -/

/-- The ASCII digit for `d < 10`. -/
def digitChar (d : Nat) : Char := Char.ofNat (48 + d)

/-- Decimal digits of `n`, most significant first; `fuel` bounds the number
of digits. -/
def natDigits : Nat → Nat → List Char
  | 0, _ => []
  | fuel + 1, n =>
    if n < 10 then [digitChar n] else natDigits fuel (n / 10) ++ [digitChar (n % 10)]

/-- Go `strconv.FormatInt(i, 10)`; `fmt.Sprintf("%d", i)` prints the same
text. -/
def FormatInt (i : Int) : String :=
  if i < 0 then String.mk ('-' :: natDigits (i.natAbs + 1) i.natAbs)
  else String.mk (natDigits (i.natAbs + 1) i.natAbs)

/-- Errors.  `wrapped msg inner` is `fmt.Errorf(msg + ": %w", inner)`. -/
inductive Error where
  | deadlineExceeded : Error
  | notNumber (fn : String) (input : String) : Error
  | outOfRange (fn : String) (input : String) : Error
  | remote (msg : String) : Error
  | message (msg : String) : Error
  | wrapped (msg : String) (inner : Error) : Error
  deriving DecidableEq, Repr

/-- Go `errors.Is(err, context.DeadlineExceeded)`: follows the `%w` chain. -/
def Error.isDeadlineExceeded : Error → Bool
  | .deadlineExceeded => true
  | .wrapped _ inner => inner.isDeadlineExceeded
  | _ => false

/-- Value of a decimal digit character, `none` for any other character. -/
def digitVal (c : Char) : Option Nat :=
  if 48 ≤ c.toNat ∧ c.toNat ≤ 57 then some (c.toNat - 48) else none

/-- The digit loop of `strconv.ParseUint` in base 10 (no underscores are
accepted when the base is given explicitly). -/
def parseDigits : List Char → Nat → Option Nat
  | [], acc => some acc
  | c :: cs, acc =>
    match digitVal c with
    | none => none
    | some d => parseDigits cs (acc * 10 + d)

/-- Go `strconv.ParseInt(s, 10, bitSize)`.  The unsigned magnitude is computed
without wrap-around: Go reports a range error as soon as the magnitude leaves
64 bits, and any such magnitude also fails the `cutoff` test below. -/
def ParseInt (s : String) (bitSize : Nat) : Except Error Int :=
  match s.data with
  | [] => .error (.notNumber "ParseInt" s)
  | c :: cs =>
    let neg : Bool := c = '-'
    let body : List Char := if c = '+' then cs else if c = '-' then cs else c :: cs
    match body with
    | [] => .error (.notNumber "ParseInt" s)
    | _ :: _ =>
      match parseDigits body 0 with
      | none => .error (.notNumber "ParseInt" s)
      | some un =>
        let cutoff : Nat := 2 ^ (bitSize - 1)
        if !neg && decide (cutoff ≤ un) then .error (.outOfRange "ParseInt" s)
        else if neg && decide (cutoff < un) then .error (.outOfRange "ParseInt" s)
        else .ok (if neg then -(un : Int) else (un : Int))

/-- Range of a Go `int32`. -/
def isInt32 (i : Int) : Prop := -2147483648 ≤ i ∧ i ≤ 2147483647

instance (i : Int) : Decidable (isInt32 i) := by unfold isInt32; infer_instance

/-! ## Data model (baton-sdk `v2` messages and govmomi records) -/

inductive Trait where
  | TRAIT_USER | TRAIT_GROUP | TRAIT_ROLE
  deriving DecidableEq, Repr

/-- The `v2.ResourceType` message.  Its `Annotations` field is left out: the
only value the connector puts there comes from `annotationsForUserResourceType`,
which is not among the sources, and nothing in the connector reads it. -/
structure ResourceType where
  id : String
  displayName : String
  traits : List Trait
  deriving DecidableEq, Repr

structure ResourceId where
  resourceType : String
  resource : String
  deriving DecidableEq, Repr

/-- Scalar values of a trait profile (`structpb.Value`). -/
inductive ProfileValue where
  | str (s : String)
  | num (n : Int)
  | bool (b : Bool)
  deriving DecidableEq, Repr

/-- A trait profile: the fields of a `structpb.Struct`, in source order. -/
abbrev Profile := List (String × ProfileValue)

inductive UserStatus where
  | STATUS_UNSPECIFIED | STATUS_ENABLED | STATUS_DISABLED
  deriving DecidableEq, Repr

structure Email where
  address : String
  isPrimary : Bool
  deriving DecidableEq, Repr

/-- The messages the connector stores in annotation lists. -/
inductive Anno where
  | userTrait (emails : List Email) (status : UserStatus) (profile : Profile)
  | groupTrait (profile : Profile)
  | roleTrait (profile : Profile)
  | grantExpandable (entitlementIds : List String)
  deriving DecidableEq, Repr

structure Resource where
  id : ResourceId
  displayName : String
  description : String
  annos : List Anno
  deriving DecidableEq, Repr

inductive Purpose where
  | PURPOSE_VALUE_UNSPECIFIED | PURPOSE_VALUE_ASSIGNMENT | PURPOSE_VALUE_PERMISSION
  deriving DecidableEq, Repr

structure Entitlement where
  resource : Resource
  id : String
  displayName : String
  description : String
  grantableTo : List ResourceType
  purpose : Purpose
  slug : String
  deriving DecidableEq, Repr

structure Grant where
  entitlement : Entitlement
  principal : Resource
  id : String
  annos : List Anno
  deriving DecidableEq, Repr

/-- The four values a builder method returns:
`(items, nextPageToken, annotations, error)`.  A nil slice is `[]`, a nil
error is `none`. -/
structure Result (α : Type) where
  items : List α
  nextPageToken : String
  annos : List Anno
  err : Option Error
  deriving DecidableEq, Repr

/-- Description part of a govmomi `AuthorizationRole`. -/
structure Description where
  label : String
  summary : String
  deriving DecidableEq, Repr

/-- The govmomi `types.AuthorizationRole` record; `RoleId` is an `int32`. -/
structure AuthorizationRole where
  RoleId : Int
  System : Bool
  Name : String
  Info : Description
  Privilege : List String
  deriving DecidableEq, Repr

/-- The govmomi `types.Permission` record. -/
structure Permission where
  Entity : String
  Principal : String
  Group : Bool
  RoleId : Int
  Propagate : Bool
  deriving DecidableEq, Repr

structure PrincipalId where
  Name : String
  Domain : String
  deriving DecidableEq, Repr

structure AdminPersonDetails where
  Description : String
  EmailAddress : String
  FirstName : String
  LastName : String
  deriving DecidableEq, Repr

/-- The ssoadmin `types.AdminPersonUser` record. -/
structure AdminPersonUser where
  Id : PrincipalId
  Details : AdminPersonDetails
  Disabled : Bool
  Locked : Bool
  deriving DecidableEq, Repr

/-- The ssoadmin `types.AdminGroup` record.  `Alias` is a pointer in govmomi;
the connector dereferences it unconditionally, so only records that carry an
alias are represented. -/
structure AdminGroup where
  Id : PrincipalId
  Alias : PrincipalId
  Description : String
  deriving DecidableEq, Repr

/-- The ssoadmin `types.AdminUser` record returned for group members. -/
structure AdminUser where
  Id : PrincipalId
  Kind : String
  Description : String
  deriving DecidableEq, Repr

/-- An SSO admin session: the answers of the directory service. -/
structure SsoClient where
  FindPersonUsers : String → Except Error (List AdminPersonUser)
  FindGroups : String → Except Error (List AdminGroup)
  FindUsersInGroup : String → String → Except Error (List AdminUser)

/-- The govmomi session shared by the builders: the answers of the
authorization manager, and the outcome of `ssoadmin.NewClient` on it (run
under the five second deadline of the caller). -/
structure Client where
  RoleList : Except Error (List AuthorizationRole)
  RetrieveRolePermissions : Int → Except Error (List Permission)
  ssoNewClient : Except Error SsoClient

/-! ## resource_types.go -/

def userResourceType : ResourceType :=
  { id := "user", displayName := "User", traits := [.TRAIT_USER] }

def roleResourceType : ResourceType :=
  { id := "role", displayName := "Role", traits := [.TRAIT_ROLE] }

def groupResourceType : ResourceType :=
  { id := "group", displayName := "Group", traits := [.TRAIT_GROUP] }

/-! ## baton-sdk constructors -/

/-- SDK `resource.NewResourceID`: the object id is converted to a string; the
conversion only rejects ids that are neither strings nor integers, so on a
string it always succeeds. -/
def NewResourceID (resourceType : ResourceType) (objectID : String) : Except Error ResourceId :=
  .ok { resourceType := resourceType.id, resource := objectID }

/-- SDK `resource.NewResource` followed by the resource options; an option is
a function on the resource under construction. -/
def NewResource (name : String) (resourceType : ResourceType) (objectID : String)
    (opts : List (Resource → Resource)) : Except Error Resource :=
  match NewResourceID resourceType objectID with
  | .error err => .error err
  | .ok rID =>
    .ok (opts.foldl (fun r o => o r)
      { id := rID, displayName := name, description := "", annos := [] })

/-- SDK `resource.WithDescription`. -/
def WithDescription (description : String) : Resource → Resource :=
  fun r => { r with description := description }

/-- SDK `resource.WithRoleTrait` with the single option `WithRoleProfile`.
Building the profile struct fails only on a string that is not valid UTF-8,
which a `String` never is. -/
def WithRoleTrait (profile : Profile) : Resource → Resource :=
  fun r => { r with annos := r.annos ++ [.roleTrait profile] }

/-- SDK `resource.WithGroupTrait` with the single option `WithGroupProfile`. -/
def WithGroupTrait (profile : Profile) : Resource → Resource :=
  fun r => { r with annos := r.annos ++ [.groupTrait profile] }

/-- SDK `resource.WithUserTrait` with the options `WithEmail(email, true)`,
`WithUserProfile` and `WithStatus`; `WithEmail` skips an empty address. -/
def WithUserTrait (email : String) (profile : Profile) (status : UserStatus) :
    Resource → Resource :=
  fun r =>
    let emails : List Email := if email = "" then [] else [{ address := email, isPrimary := true }]
    { r with annos := r.annos ++ [.userTrait emails status profile] }

/-- SDK `resource.NewRoleResource`: resource options first, the trait last. -/
def NewRoleResource (name : String) (resourceType : ResourceType) (objectID : String)
    (profile : Profile) (opts : List (Resource → Resource)) : Except Error Resource :=
  NewResource name resourceType objectID (opts ++ [WithRoleTrait profile])

/-- SDK `resource.NewGroupResource`. -/
def NewGroupResource (name : String) (resourceType : ResourceType) (objectID : String)
    (profile : Profile) (opts : List (Resource → Resource)) : Except Error Resource :=
  NewResource name resourceType objectID (opts ++ [WithGroupTrait profile])

/-- SDK `resource.NewUserResource`. -/
def NewUserResource (name : String) (resourceType : ResourceType) (objectID : String)
    (email : String) (profile : Profile) (status : UserStatus) : Except Error Resource :=
  NewResource name resourceType objectID [WithUserTrait email profile status]

/-- SDK `resource.GetRoleTrait`: the first role trait among the annotations. -/
def GetRoleTrait (resource : Resource) : Except Error Profile :=
  match resource.annos.findSome? (fun a => match a with | .roleTrait p => some p | _ => none) with
  | some p => .ok p
  | none => .error (.message "role trait was not found on resource")

/-- SDK `resource.GetProfileStringValue`: the field must exist and hold a
string. -/
def GetProfileStringValue (profile : Profile) (k : String) : Option String :=
  match profile.lookup k with
  | some (.str s) => some s
  | _ => none

/-- SDK `entitlement.NewEntitlementID`: `"%s:%s:%s"`. -/
def NewEntitlementID (resource : Resource) (permission : String) : String :=
  resource.id.resourceType ++ ":" ++ resource.id.resource ++ ":" ++ permission

abbrev EntitlementOption := Entitlement → Entitlement

def WithGrantableTo (grantableTo : List ResourceType) : EntitlementOption :=
  fun e => { e with grantableTo := grantableTo }

def WithDisplayName (displayName : String) : EntitlementOption :=
  fun e => { e with displayName := displayName }

def WithEntitlementDescription (description : String) : EntitlementOption :=
  fun e => { e with description := description }

/-- SDK `entitlement.NewAssignmentEntitlement`. -/
def NewAssignmentEntitlement (resource : Resource) (name : String)
    (opts : List EntitlementOption) : Entitlement :=
  opts.foldl (fun e o => o e)
    { resource := resource, id := NewEntitlementID resource name, displayName := name,
      description := "", grantableTo := [], purpose := .PURPOSE_VALUE_ASSIGNMENT, slug := name }

/-- SDK `entitlement.NewPermissionEntitlement`. -/
def NewPermissionEntitlement (resource : Resource) (name : String)
    (opts : List EntitlementOption) : Entitlement :=
  opts.foldl (fun e o => o e)
    { resource := resource, id := NewEntitlementID resource name, displayName := name,
      description := "", grantableTo := [], purpose := .PURPOSE_VALUE_PERMISSION, slug := name }

abbrev GrantOption := Grant → Grant

/-- SDK `grant.WithAnnotation`: the messages are serialised into the grant at
the moment the option runs, so later changes to a slice they hold do not
reach the grant. -/
def WithAnnotation (msgs : List Anno) : GrantOption :=
  fun g => { g with annos := g.annos ++ msgs }

/-- SDK `grant.NewGrant` for a principal given as a resource id.  The grant
refers to its entitlement by id and resource only. -/
def NewGrant (resource : Resource) (entitlementName : String) (principal : ResourceId)
    (opts : List GrantOption) : Grant :=
  let entitlement : Entitlement :=
    { resource := resource, id := NewEntitlementID resource entitlementName, displayName := "",
      description := "", grantableTo := [], purpose := .PURPOSE_VALUE_UNSPECIFIED, slug := "" }
  let grant : Grant := opts.foldl (fun g o => o g)
    { entitlement := entitlement,
      principal := { id := principal, displayName := "", description := "", annos := [] },
      id := "", annos := [] }
  { grant with id := entitlement.id ++ ":" ++ principal.resourceType ++ ":" ++ principal.resource }

/-- The `GrantExpandable` entitlement ids carried by a grant, if any. -/
def Grant.expansion (g : Grant) : Option (List String) :=
  g.annos.findSome? (fun a => match a with | .grantExpandable ids => some ids | _ => none)

/-! ## roles.go -/

def RoleMembershipEntitlement : String := "member"

/-- The constant of groups.go, used by roles.go as well. -/
def GroupMembershipEntitlement : String := "member"

structure roleBuilder where
  resourceType : ResourceType
  client : Client

/-- A result that carries only an error: `return nil, "", nil, err`. -/
def Result.fail {α : Type} (err : Error) : Result α :=
  { items := [], nextPageToken := "", annos := [], err := some err }

/-- A successful single-page result: `return rv, "", nil, nil`. -/
def Result.done {α : Type} (rv : List α) : Result α :=
  { items := rv, nextPageToken := "", annos := [], err := none }

def roleResource (role : AuthorizationRole) : Except Error Resource :=
  let profile : Profile :=
    [ ("role_id", .num role.RoleId),
      ("role_name", .str role.Name),
      ("system_defined", .bool role.System),
      ("privileges", .str (Join role.Privilege ",")) ]
  let roleID := FormatInt role.RoleId
  match NewRoleResource role.Name roleResourceType roleID profile
      [WithDescription role.Info.summary] with
  | .error err => .error err
  | .ok res => .ok res

/-- The loop `for _, x := range xs { r, err := f(x); if err != nil { return
wrap(err) }; rv = append(rv, r) }` shared by the three `List` methods. -/
def buildAll {α β : Type} (f : α → Except Error β) (wrap : Error → Error) :
    List α → List β → Except Error (List β)
  | [], rv => .ok rv
  | x :: xs, rv =>
    match f x with
    | .error err => .error (wrap err)
    | .ok r => buildAll f wrap xs (rv ++ [r])

def roleBuilder.ResourceType (_r : roleBuilder) : ResourceType := roleResourceType

def roleBuilder.List (r : roleBuilder) : Result Resource :=
  match r.client.RoleList with
  | .error err => .fail (.wrapped "vmware-vcenter-connector: failed to list roles" err)
  | .ok roles =>
    match buildAll roleResource
        (.wrapped "vmware-vcenter-connector: failed to create role resource") roles [] with
    | .error err => .fail err
    | .ok rv => .done rv

def roleBuilder.Entitlements (_r : roleBuilder) (resource : Resource) : Result Entitlement :=
  let aOptions :=
    [ WithGrantableTo [userResourceType, groupResourceType],
      WithDisplayName ("Role " ++ resource.displayName ++ " " ++ RoleMembershipEntitlement),
      WithEntitlementDescription
        ("Role " ++ resource.displayName ++ " membership in vCenter Server") ]
  let rv := [] ++ [NewAssignmentEntitlement resource RoleMembershipEntitlement aOptions]
  match GetRoleTrait resource with
  | .error err => .fail (.wrapped "vmware-vcenter-connector: failed to get role trait" err)
  | .ok roleTrait =>
    match GetProfileStringValue roleTrait "privileges" with
    | none => .fail (.message "vmware-vcenter-connector: failed to get role trait privileges")
    | some privilegesPayload =>
      let privileges := Split privilegesPayload ','
      .done (privileges.foldl (fun rv p =>
        let pOptions :=
          [ WithGrantableTo [userResourceType, groupResourceType],
            WithDisplayName ("Role " ++ resource.displayName ++ " " ++ p),
            WithEntitlementDescription
              ("Role " ++ resource.displayName ++ " privilege " ++ p ++ " in vCenter Server") ]
        rv ++ [NewPermissionEntitlement resource p pOptions]) rv)

/-- The first loop of `roleBuilder.Grants`: one `role:<id>:<privilege>` entry
per privilege. -/
def roleEntitlementIDs (roleID : Int) (privileges : List String) : List String :=
  privileges.foldl (fun entitlementIDs priv =>
    entitlementIDs ++ ["role:" ++ FormatInt roleID ++ ":" ++ priv]) []

/-- The second loop of `roleBuilder.Grants`: `entitlementIDs` is carried from
one permission record to the next, `rv` collects the grants. -/
def roleGrantsLoop (resource : Resource) :
    List Permission → List String → List Grant → Except Error (List Grant)
  | [], _, rv => .ok rv
  | perm :: rest, entitlementIDs, rv =>
    let step : Except Error ResourceId × List String :=
      if perm.Group then
        (NewResourceID groupResourceType perm.Principal,
         entitlementIDs ++ ["group:" ++ perm.Principal ++ ":" ++ GroupMembershipEntitlement])
      else
        (NewResourceID userResourceType perm.Principal, entitlementIDs)
    match step.1 with
    | .error err =>
      .error (.wrapped "vmware-vcenter-connector: failed to create principal resource id" err)
    | .ok principalID =>
      roleGrantsLoop resource rest step.2
        (rv ++ [NewGrant resource RoleMembershipEntitlement principalID
                  [ WithAnnotation [.grantExpandable step.2] ]])

def roleBuilder.Grants (r : roleBuilder) (resource : Resource) : Result Grant :=
  match ParseInt resource.id.resource 32 with
  | .error err => .fail (.wrapped "vmware-vcenter-connector: failed to parse role id" err)
  | .ok roleID =>
    -- `int32(roleID)` keeps the value: `ParseInt` has checked the 32-bit range
    match r.client.RetrieveRolePermissions roleID with
    | .error err =>
      .fail (.wrapped ("vmware-vcenter-connector: failed to list permissions for role "
        ++ resource.displayName) err)
    | .ok permissions =>
      match GetRoleTrait resource with
      | .error err => .fail (.wrapped "vmware-vcenter-connector: failed to get role trait" err)
      | .ok roleTrait =>
        match GetProfileStringValue roleTrait "privileges" with
        | none =>
          .fail (.message "vmware-vcenter-connector: failed to get role trait privileges")
        | some privilegesPayload =>
          let privileges := Split privilegesPayload ','
          let entitlementIDs := roleEntitlementIDs roleID privileges
          match roleGrantsLoop resource permissions entitlementIDs [] with
          | .error err => .fail err
          | .ok rv => .done rv

def newRoleBuilder (client : Client) : roleBuilder :=
  { client := client, resourceType := roleResourceType }

/-! ## users.go -/

structure userBuilder where
  resourceType : ResourceType
  client : Client

def userResource (user : AdminPersonUser) : Except Error Resource :=
  let profile : Profile :=
    [ ("email", .str user.Details.EmailAddress),
      ("firstName", .str user.Details.FirstName),
      ("lastName", .str user.Details.LastName),
      ("user_id", .str user.Id.Name) ]
  let status : UserStatus :=
    if user.Disabled || user.Locked then .STATUS_DISABLED else .STATUS_ENABLED
  match NewUserResource user.Id.Name userResourceType user.Id.Name
      user.Details.EmailAddress profile status with
  | .error err => .error err
  | .ok res => .ok res

def userBuilder.ResourceType (_u : userBuilder) : ResourceType := userResourceType

def userBuilder.List (u : userBuilder) : Result Resource :=
  match u.client.ssoNewClient with
  | .error err =>
    if err.isDeadlineExceeded then .done [] else .fail err
  | .ok sso =>
    match sso.FindPersonUsers "*" with
    | .error err => .fail (.wrapped "vmware-vcenter-connector: failed to list users" err)
    | .ok users =>
      match buildAll userResource id users [] with
      | .error err => .fail err
      | .ok rv => .done rv

def userBuilder.Entitlements (_u : userBuilder) (_resource : Resource) : Result Entitlement :=
  .done []

def userBuilder.Grants (_u : userBuilder) (_resource : Resource) : Result Grant :=
  .done []

def newUserBuilder (client : Client) : userBuilder :=
  { client := client, resourceType := userResourceType }

/-! ## groups.go -/

structure groupBuilder where
  resourceType : ResourceType
  client : Client

def groupResource (group : AdminGroup) : Except Error Resource :=
  let profile : Profile :=
    [ ("group_id", .str group.Id.Name),
      ("group_alias", .str group.Alias.Name) ]
  match NewGroupResource group.Id.Name groupResourceType group.Id.Name profile
      [WithDescription group.Description] with
  | .error err => .error err
  | .ok res => .ok res

def groupBuilder.ResourceType (_g : groupBuilder) : ResourceType := groupResourceType

def groupBuilder.List (g : groupBuilder) : Result Resource :=
  match g.client.ssoNewClient with
  | .error err =>
    if err.isDeadlineExceeded then .done [] else .fail err
  | .ok sso =>
    match sso.FindGroups "*" with
    | .error err => .fail (.wrapped "vmware-vcenter-connector: failed to list groups" err)
    | .ok groups =>
      match buildAll groupResource
          (.wrapped "vmware-vcenter-connector: failed to create group resource") groups [] with
      | .error err => .fail err
      | .ok rv => .done rv

def groupBuilder.Entitlements (_g : groupBuilder) (resource : Resource) : Result Entitlement :=
  let aOptions :=
    [ WithGrantableTo [userResourceType],
      WithDisplayName ("Group " ++ resource.displayName ++ " " ++ GroupMembershipEntitlement),
      WithEntitlementDescription
        ("Group " ++ resource.displayName ++ " membership in vCenter Server") ]
  .done ([] ++ [NewAssignmentEntitlement resource GroupMembershipEntitlement aOptions])

def groupBuilder.Grants (g : groupBuilder) (resource : Resource) : Result Grant :=
  match g.client.ssoNewClient with
  | .error err =>
    if err.isDeadlineExceeded then .done [] else .fail err
  | .ok sso =>
    match sso.FindUsersInGroup resource.id.resource "*" with
    | .error err =>
      .fail (.wrapped "vmware-vcenter-connector: failed to list group members" err)
    | .ok members =>
      match buildAll
          (fun m =>
            match NewResourceID userResourceType m.Id.Name with
            | .error err => .error err
            | .ok userID => .ok (NewGrant resource GroupMembershipEntitlement userID []))
          (.wrapped "vmware-vcenter-connector: failed to create user resource id")
          members [] with
      | .error err => .fail err
      | .ok rv => .done rv

def newGroupBuilder (client : Client) : groupBuilder :=
  { client := client, resourceType := groupResourceType }

/-! ## connector.go -/

structure VMwareVCenter where
  client : Client

/-- A value of the SDK interface `connectorbuilder.ResourceSyncer`: one of the
three builders of this package. -/
inductive ResourceSyncer where
  | user (b : userBuilder)
  | group (b : groupBuilder)
  | role (b : roleBuilder)

def ResourceSyncer.ResourceType : ResourceSyncer → ResourceType
  | .user b => b.ResourceType
  | .group b => b.ResourceType
  | .role b => b.ResourceType

def VMwareVCenter.ResourceSyncers (vc : VMwareVCenter) : List ResourceSyncer :=
  [ .user (newUserBuilder vc.client),
    .role (newRoleBuilder vc.client) ]

structure ConnectorMetadata where
  displayName : String
  description : String
  deriving DecidableEq, Repr

def VMwareVCenter.Metadata (_vc : VMwareVCenter) : Except Error ConnectorMetadata :=
  .ok { displayName := "VMwareVCenter",
        description := "Connector syncing VMware vCenter Server users, groups and roles to Baton" }

/-! ## Sample data -/

/-- A remote service that answers every call with an empty list. -/
def emptySso : SsoClient :=
  { FindPersonUsers := fun _ => .ok [],
    FindGroups := fun _ => .ok [],
    FindUsersInGroup := fun _ _ => .ok [] }

def emptyClient : Client :=
  { RoleList := .ok [],
    RetrieveRolePermissions := fun _ => .ok [],
    ssoNewClient := .ok emptySso }

/-- The role of the scenarios: id 10, `Admin`, two privileges. -/
def adminRole : AuthorizationRole :=
  { RoleId := 10, System := false, Name := "Admin",
    Info := { label := "Admin", summary := "Administrators" },
    Privilege := ["vm.create", "vm.delete"] }

/-- A role without privileges, such as the built-in no-access role (id -5). -/
def noAccessRole : AuthorizationRole :=
  { RoleId := -5, System := true, Name := "NoAccess",
    Info := { label := "No access", summary := "" },
    Privilege := [] }

/-- A client whose authorization manager reports `perms` for every role. -/
def clientWithPermissions (perms : List Permission) : Client :=
  { emptyClient with RetrieveRolePermissions := fun _ => .ok perms }

def userPerm (principal : String) : Permission :=
  { Entity := "Folder:group-d1", Principal := principal, Group := false, RoleId := 10,
    Propagate := true }

def groupPerm (principal : String) : Permission :=
  { Entity := "Folder:group-d1", Principal := principal, Group := true, RoleId := 10,
    Propagate := true }

/-- A role one of whose privileges is called like the membership slug. -/
def memberPrivRole : AuthorizationRole :=
  { RoleId := 7, System := false, Name := "Ops",
    Info := { label := "Ops", summary := "" },
    Privilege := ["member"] }

/-- A role with a privilege string that contains the separator. -/
def commaPrivRole : AuthorizationRole :=
  { RoleId := 8, System := false, Name := "Odd",
    Info := { label := "Odd", summary := "" },
    Privilege := ["a,b"] }

/-- SDK `resource.GetUserTrait`, reduced to the status it carries. -/
def Resource.userStatus (r : Resource) : Option UserStatus :=
  r.annos.findSome? (fun a => match a with | .userTrait _ status _ => some status | _ => none)

/-- The value stored under `privileges` in the role trait of a resource. -/
def Resource.privilegesPayload (r : Resource) : Option String :=
  match GetRoleTrait r with
  | .error _ => none
  | .ok profile => GetProfileStringValue profile "privileges"

/-- A directory user: enabled, unlocked, with the given name. -/
def person (name : String) (disabled locked : Bool) : AdminPersonUser :=
  { Id := { Name := name, Domain := "vsphere.local" },
    Details := { Description := "", EmailAddress := name ++ "@example.com",
                 FirstName := name, LastName := "" },
    Disabled := disabled, Locked := locked }

def member (name : String) : AdminUser :=
  { Id := { Name := name, Domain := "vsphere.local" }, Kind := "person", Description := "" }

/-- The group resource `eng`. -/
def engGroup : Resource :=
  { id := { resourceType := "group", resource := "eng" }, displayName := "eng",
    description := "", annos := [.groupTrait [("group_id", .str "eng")]] }

/-- A directory in which every group has the members `bob` and `carol`. -/
def engClient : Client :=
  { emptyClient with
    ssoNewClient := .ok { emptySso with FindUsersInGroup := fun _ _ => .ok [member "bob", member "carol"] } }

/-- A directory whose session opens in time but whose queries run into the
deadline. -/
def slowQueryClient : Client :=
  { emptyClient with
    ssoNewClient := .ok
      { FindPersonUsers := fun _ => .error .deadlineExceeded,
        FindGroups := fun _ => .error .deadlineExceeded,
        FindUsersInGroup := fun _ _ => .error .deadlineExceeded } }

/-- A directory whose session does not open within the deadline. -/
def slowSessionClient : Client :=
  { emptyClient with ssoNewClient := .error (.wrapped "Post" .deadlineExceeded) }

/-- A directory that refuses the session. -/
def refusedClient : Client :=
  { emptyClient with ssoNewClient := .error (.remote "ServerFaultCode: invalid credentials") }

/-- The resource `roleResource` builds for `adminRole`. -/
def adminResource : Resource :=
  { id := { resourceType := "role", resource := "10" }, displayName := "Admin",
    description := "Administrators",
    annos := [.roleTrait
      [ ("role_id", .num 10), ("role_name", .str "Admin"), ("system_defined", .bool false),
        ("privileges", .str "vm.create,vm.delete") ]] }

/-- The resource `roleResource` builds for `noAccessRole`. -/
def noAccessResource : Resource :=
  { id := { resourceType := "role", resource := "-5" }, displayName := "NoAccess",
    description := "",
    annos := [.roleTrait
      [ ("role_id", .num (-5)), ("role_name", .str "NoAccess"), ("system_defined", .bool true),
        ("privileges", .str "") ]] }

/-! ## Reference descriptions of the role grants

What the claims say about `roleBuilder.Grants`, written without the loop
state, to be compared with `roleGrantsLoop`. -/

/-- The `group:<principal>:member` entries of the group records among `perms`,
in record order. -/
def groupEntries (perms : List Permission) : List String :=
  (perms.filter (fun q => q.Group)).map
    (fun q => "group:" ++ q.Principal ++ ":" ++ GroupMembershipEntitlement)

/-- The grant for one permission record: the `member` entitlement of the
role, a group or user principal according to the flag, and the expansion
list `ids`. -/
def roleGrant (resource : Resource) (q : Permission) (ids : List String) : Grant :=
  NewGrant resource RoleMembershipEntitlement
    { resourceType := if q.Group then groupResourceType.id else userResourceType.id,
      resource := q.Principal }
    [ WithAnnotation [.grantExpandable ids] ]

/-- The grants for `perms` when the expansion list starts as `ids`: record
`k` gets `ids` extended by the group entries of records `0..k`. -/
def roleGrantsFrom (resource : Resource) (perms : List Permission) (ids : List String) :
    List Grant :=
  (List.range perms.length).filterMap (fun k =>
    (perms[k]?).map (fun q => roleGrant resource q (ids ++ groupEntries (perms.take (k + 1)))))

/-! ## Lemmas on the library functions -/

theorem foldl_append_singleton {α β : Type} (f : α → β) (xs : List α) (init : List β) :
    xs.foldl (fun acc x => acc ++ [f x]) init = init ++ xs.map f := by
  induction xs generalizing init with
  | nil => simp
  | cons x xs ih => simp [List.foldl_cons, ih]

theorem splitFields_of_not_mem (sep : Char) (p : List Char) (h : sep ∉ p) :
    splitFields sep p = (p, []) := by
  induction p with
  | nil => rfl
  | cons c cs ih =>
    have hc : c ≠ sep := fun e => h (by simp [e])
    have hcs : sep ∉ cs := fun m => h (List.mem_cons_of_mem _ m)
    simp [splitFields, hc, ih hcs]

theorem splitFields_append_sep (sep : Char) (p rest : List Char) (h : sep ∉ p) :
    splitFields sep (p ++ sep :: rest)
      = (p, (splitFields sep rest).1 :: (splitFields sep rest).2) := by
  induction p with
  | nil => simp [splitFields]
  | cons c cs ih =>
    have hc : c ≠ sep := fun e => h (by simp [e])
    have hcs : sep ∉ cs := fun m => h (List.mem_cons_of_mem _ m)
    simp [splitFields, hc, ih hcs]

/-- Splitting a joined list: a first element without commas comes back as the
first field, followed by the split of the rest. -/
theorem Split_append_comma (a rest : String) (h : ',' ∉ a.data) :
    Split (a ++ "," ++ rest) ',' = a :: Split rest ',' := by
  have hd : (a ++ "," ++ rest).data = a.data ++ ',' :: rest.data := by
    simp [String.data_append]
  simp [Split, hd, splitFields_append_sep ',' a.data rest.data h]

theorem Split_of_no_comma (a : String) (h : ',' ∉ a.data) : Split a ',' = [a] := by
  simp [Split, splitFields_of_not_mem ',' a.data h]

/-- Round trip of `strings.Join` and `strings.Split` on a non-empty list of
comma-free strings. -/
theorem Split_Join (P : List String) (hne : P ≠ []) (hfree : ∀ p ∈ P, ',' ∉ p.data) :
    Split (Join P ",") ',' = P := by
  induction P with
  | nil => exact absurd rfl hne
  | cons a rest ih =>
    cases rest with
    | nil => simpa [Join] using Split_of_no_comma a (hfree a (by simp))
    | cons b rest =>
      have h1 : Split (Join (b :: rest) ",") ',' = b :: rest :=
        ih (by simp) (fun p hp => hfree p (List.mem_cons_of_mem _ hp))
      simp only [Join]
      rw [Split_append_comma a _ (hfree a (by simp)), h1]

theorem digitVal_digitChar (d : Nat) (h : d < 10) : digitVal (digitChar d) = some d := by
  interval_cases d <;> decide

theorem parseDigits_append (xs ys : List Char) (acc : Nat) :
    parseDigits (xs ++ ys) acc = (parseDigits xs acc).bind (parseDigits ys) := by
  induction xs generalizing acc with
  | nil => simp [parseDigits]
  | cons c cs ih =>
    simp only [List.cons_append, parseDigits]
    cases digitVal c with
    | none => simp
    | some d => simp [ih]

theorem parseDigits_natDigits (fuel n : Nat) (h : n < fuel) :
    parseDigits (natDigits fuel n) 0 = some n := by
  induction fuel generalizing n with
  | zero => omega
  | succ fuel ih =>
    unfold natDigits
    split
    · rename_i hlt
      simp [parseDigits, digitVal_digitChar n hlt]
    · rename_i hge
      have h10 : n / 10 < fuel := by omega
      rw [parseDigits_append, ih (n / 10) h10]
      simp only [Option.some_bind, parseDigits, digitVal_digitChar (n % 10) (Nat.mod_lt _ (by decide))]
      congr 1
      omega

theorem natDigits_ne_nil (fuel n : Nat) (h : n < fuel) : natDigits fuel n ≠ [] := by
  cases fuel with
  | zero => omega
  | succ fuel =>
    unfold natDigits
    split <;> simp

/-- The sign test and the range test of `ParseInt` on a digit string. -/
theorem ParseInt_digits (c : Char) (cs : List Char) (un : Nat)
    (hp : parseDigits (c :: cs) 0 = some un) (hr : un < 2147483648) :
    ParseInt (String.mk (c :: cs)) 32 = .ok (un : Int) := by
  have hd : digitVal c ≠ none := by
    intro e
    simp [parseDigits, e] at hp
  have hplus : c ≠ '+' := by
    intro e; subst e; exact hd (by decide)
  have hminus : c ≠ '-' := by
    intro e; subst e; exact hd (by decide)
  have hcut : ¬ (2147483648 ≤ un) := by omega
  simp [ParseInt, hplus, hminus, hp, hcut]

theorem ParseInt_neg_digits (c : Char) (cs : List Char) (un : Nat)
    (hp : parseDigits (c :: cs) 0 = some un) (hr : un ≤ 2147483648) :
    ParseInt (String.mk ('-' :: c :: cs)) 32 = .ok (-(un : Int)) := by
  have hcut : ¬ (2147483648 < un) := by omega
  have hm : ('-' : Char) ≠ '+' := by decide
  simp [ParseInt, hm, hp, hcut]

/-- Parsing back the decimal text of an `int32` gives the same number. -/
theorem ParseInt_FormatInt (n : Int) (h : isInt32 n) : ParseInt (FormatInt n) 32 = .ok n := by
  obtain ⟨hlo, hhi⟩ := h
  have hp := parseDigits_natDigits (n.natAbs + 1) n.natAbs (Nat.lt_succ_self _)
  have hne := natDigits_ne_nil (n.natAbs + 1) n.natAbs (Nat.lt_succ_self _)
  unfold FormatInt
  cases hds : natDigits (n.natAbs + 1) n.natAbs with
  | nil => exact absurd hds hne
  | cons c cs =>
    rw [hds] at hp
    split
    · rename_i hneg
      rw [ParseInt_neg_digits c cs n.natAbs hp (by omega)]
      congr 1
      omega
    · rename_i hpos
      rw [ParseInt_digits c cs n.natAbs hp (by omega)]
      congr 1
      omega

/-! ## Lemmas on the builders -/

theorem roleResource_eq (role : AuthorizationRole) :
    roleResource role = .ok
      { id := { resourceType := "role", resource := FormatInt role.RoleId },
        displayName := role.Name,
        description := role.Info.summary,
        annos := [.roleTrait
          [ ("role_id", .num role.RoleId), ("role_name", .str role.Name),
            ("system_defined", .bool role.System),
            ("privileges", .str (Join role.Privilege ",")) ]] } := rfl

theorem roleResource_payload (role : AuthorizationRole) (r : Resource)
    (hr : roleResource role = .ok r) :
    ∃ profile, GetRoleTrait r = .ok profile ∧
      GetProfileStringValue profile "privileges" = some (Join role.Privilege ",") := by
  rw [roleResource_eq] at hr
  injection hr with hr
  subst hr
  exact ⟨_, rfl, rfl⟩

theorem roleResource_id (role : AuthorizationRole) (r : Resource)
    (hr : roleResource role = .ok r) :
    r.id = { resourceType := "role", resource := FormatInt role.RoleId } := by
  rw [roleResource_eq] at hr
  injection hr with hr
  subst hr
  rfl

/-- The entitlements of a role resource whose trait carries a `privileges`
string: the assignment entitlement, then one permission entitlement per field
of the split. -/
theorem roleEntitlements_eq (b : roleBuilder) (resource : Resource) (profile : Profile)
    (payload : String) (ht : GetRoleTrait resource = .ok profile)
    (hp : GetProfileStringValue profile "privileges" = some payload) :
    b.Entitlements resource = Result.done
      (NewAssignmentEntitlement resource RoleMembershipEntitlement
          [ WithGrantableTo [userResourceType, groupResourceType],
            WithDisplayName ("Role " ++ resource.displayName ++ " " ++ RoleMembershipEntitlement),
            WithEntitlementDescription
              ("Role " ++ resource.displayName ++ " membership in vCenter Server") ]
        :: (Split payload ',').map (fun p =>
          NewPermissionEntitlement resource p
            [ WithGrantableTo [userResourceType, groupResourceType],
              WithDisplayName ("Role " ++ resource.displayName ++ " " ++ p),
              WithEntitlementDescription
                ("Role " ++ resource.displayName ++ " privilege " ++ p
                  ++ " in vCenter Server") ])) := by
  unfold roleBuilder.Entitlements
  simp only [ht, hp]
  rw [foldl_append_singleton]
  rfl

theorem buildAll_ok {α β : Type} (f : α → Except Error β) (g : α → β) (wrap : Error → Error)
    (hf : ∀ x, f x = .ok (g x)) (xs : List α) (rv : List β) :
    buildAll f wrap xs rv = .ok (rv ++ xs.map g) := by
  induction xs generalizing rv with
  | nil => simp [buildAll]
  | cons x xs ih => simp [buildAll, hf x, ih]

theorem range_filterMap_cons {α β : Type} (f : Nat → α → β) (x : α) (xs : List α) :
    (List.range (x :: xs).length).filterMap (fun k => ((x :: xs)[k]?).map (f k))
      = f 0 x :: (List.range xs.length).filterMap (fun k => (xs[k]?).map (f (k + 1))) := by
  simp only [List.length_cons, List.range_succ_eq_map, List.filterMap_cons, List.filterMap_map]
  simp only [List.getElem?_cons_zero, Option.map_some']
  congr 1
  apply congrArg (fun g => List.filterMap g (List.range xs.length))
  funext k
  simp [Function.comp]

theorem range_filterMap_length {α β : Type} (f : Nat → α → β) (xs : List α) :
    ((List.range xs.length).filterMap (fun k => (xs[k]?).map (f k))).length = xs.length := by
  induction xs generalizing f with
  | nil => simp
  | cons x xs ih => rw [range_filterMap_cons]; simp [ih]

theorem range_filterMap_getElem? {α β : Type} (f : Nat → α → β) (xs : List α) (k : Nat) :
    ((List.range xs.length).filterMap (fun k => (xs[k]?).map (f k)))[k]?
      = (xs[k]?).map (f k) := by
  induction xs generalizing f k with
  | nil => simp
  | cons x xs ih =>
    rw [range_filterMap_cons]
    cases k with
    | zero => simp
    | succ k => simp [ih]

theorem groupEntries_cons (q : Permission) (rest : List Permission) :
    groupEntries (q :: rest) = groupEntries [q] ++ groupEntries rest := by
  unfold groupEntries
  cases hq : q.Group <;> simp [List.filter_cons, hq]

theorem roleGrantsFrom_nil (resource : Resource) (ids : List String) :
    roleGrantsFrom resource [] ids = [] := rfl

theorem roleGrantsFrom_cons (resource : Resource) (q : Permission) (rest : List Permission)
    (ids : List String) :
    roleGrantsFrom resource (q :: rest) ids
      = roleGrant resource q (ids ++ groupEntries [q])
          :: roleGrantsFrom resource rest (ids ++ groupEntries [q]) := by
  unfold roleGrantsFrom
  rw [range_filterMap_cons]
  congr 1
  apply congrArg (fun g => List.filterMap g (List.range rest.length))
  funext k
  rw [List.take_succ_cons, groupEntries_cons, List.append_assoc]

theorem roleGrantsFrom_length (resource : Resource) (perms : List Permission)
    (ids : List String) : (roleGrantsFrom resource perms ids).length = perms.length :=
  range_filterMap_length _ perms

theorem roleGrantsFrom_getElem? (resource : Resource) (perms : List Permission)
    (ids : List String) (k : Nat) :
    (roleGrantsFrom resource perms ids)[k]?
      = (perms[k]?).map (fun q =>
          roleGrant resource q (ids ++ groupEntries (perms.take (k + 1)))) :=
  range_filterMap_getElem? _ perms k

/-- The second loop of `roleBuilder.Grants` never fails and appends to `rv`
the grants described by `roleGrantsFrom`. -/
theorem roleGrantsLoop_eq (resource : Resource) (perms : List Permission) (ids : List String)
    (rv : List Grant) :
    roleGrantsLoop resource perms ids rv = .ok (rv ++ roleGrantsFrom resource perms ids) := by
  induction perms generalizing ids rv with
  | nil => simp [roleGrantsLoop, roleGrantsFrom_nil]
  | cons q rest ih =>
    rw [roleGrantsFrom_cons]
    unfold roleGrantsLoop
    cases hq : q.Group
    · simp [NewResourceID, ih, roleGrant, groupEntries, hq]
    · simp [NewResourceID, ih, roleGrant, groupEntries, hq]

theorem roleEntitlementIDs_eq (roleID : Int) (privileges : List String) :
    roleEntitlementIDs roleID privileges
      = privileges.map (fun p => "role:" ++ FormatInt roleID ++ ":" ++ p) := by
  unfold roleEntitlementIDs
  rw [foldl_append_singleton]
  rfl

/-- The grants of a role resource with a parsable id and a `privileges`
string, when the authorization manager answers with `perms`. -/
theorem roleGrants_eq (b : roleBuilder) (resource : Resource) (n : Int) (profile : Profile)
    (payload : String) (perms : List Permission)
    (hid : ParseInt resource.id.resource 32 = .ok n)
    (ht : GetRoleTrait resource = .ok profile)
    (hp : GetProfileStringValue profile "privileges" = some payload)
    (hperm : b.client.RetrieveRolePermissions n = .ok perms) :
    b.Grants resource = Result.done
      (roleGrantsFrom resource perms
        ((Split payload ',').map (fun p => "role:" ++ FormatInt n ++ ":" ++ p))) := by
  unfold roleBuilder.Grants
  simp only [hid, hperm, ht, hp, roleGrantsLoop_eq, roleEntitlementIDs_eq, List.nil_append]

theorem roleGrant_expansion (resource : Resource) (q : Permission) (ids : List String) :
    (roleGrant resource q ids).expansion = some ids := rfl

theorem mem_roleGrantsFrom (resource : Resource) (perms : List Permission) (ids : List String)
    (g : Grant) (hg : g ∈ roleGrantsFrom resource perms ids) :
    ∃ k q, perms[k]? = some q ∧
      g = roleGrant resource q (ids ++ groupEntries (perms.take (k + 1))) := by
  obtain ⟨k, hk⟩ := List.getElem?_of_mem hg
  rw [roleGrantsFrom_getElem?] at hk
  cases hq : perms[k]? with
  | none => simp [hq] at hk
  | some q =>
    rw [hq] at hk
    exact ⟨k, q, hq, by simpa using hk.symm⟩

theorem append_colon_member (x : String) : x ++ ":" ++ "member" = x ++ ":member" := by
  rw [String.append_assoc]
  rfl

theorem NewEntitlementID_inj (resource : Resource) (a b : String)
    (h : NewEntitlementID resource a = NewEntitlementID resource b) : a = b := by
  have hd := congrArg String.data h
  simp only [NewEntitlementID, String.data_append, List.append_cancel_left_eq] at hd
  exact String.ext hd

theorem roleGrant_fields (resource : Resource) (q : Permission) (ids : List String) :
    (roleGrant resource q ids).entitlement.id = NewEntitlementID resource RoleMembershipEntitlement ∧
    (roleGrant resource q ids).entitlement.resource = resource ∧
    (roleGrant resource q ids).principal.id
      = { resourceType := if q.Group then "group" else "user", resource := q.Principal } :=
  ⟨rfl, rfl, rfl⟩

/-- C1 (failing input): for a role without privileges, `roleResource` stores
the empty string under `privileges`, and splitting it on the comma yields one
empty privilege, not the empty privilege list of the role. -/
theorem noAccessRole_privileges_split :
    ∃ r, roleResource noAccessRole = .ok r ∧
      r.privilegesPayload = some (Join noAccessRole.Privilege ",") ∧
      r.privilegesPayload.map (fun s => Split s ',') = some [""] ∧
      noAccessRole.Privilege = [] ∧
      r.privilegesPayload.map (fun s => Split s ',') ≠ some noAccessRole.Privilege :=
  ⟨_, rfl, by decide, by decide, rfl, by decide⟩

/-- C2 (counterexample): a role without privileges gets two entitlements, not
one; a role with the single privilege `member` gets two entitlements whose
slug is `member`. -/
theorem roleEntitlements_counterexample :
    (∃ r, roleResource noAccessRole = .ok r ∧
      ((newRoleBuilder emptyClient).Entitlements r).items.length = 2 ∧
      1 + noAccessRole.Privilege.length = 1) ∧
    (∃ r, roleResource memberPrivRole = .ok r ∧
      (((newRoleBuilder emptyClient).Entitlements r).items.filter
        (fun e => e.slug = "member")).length = 2) :=
  ⟨⟨_, rfl, by decide, by decide⟩, ⟨_, rfl, by decide⟩⟩

/-- C2 (amended): for a role record with a non-empty list of comma-free
privileges, none of them named `member`, `roleBuilder.Entitlements` on the
resource built by `roleResource` succeeds, returns `1 + number of privileges`
entitlements, and exactly one of them has slug `member`. -/
theorem roleEntitlements_count (b : roleBuilder) (role : AuthorizationRole) (r : Resource)
    (hr : roleResource role = .ok r)
    (hne : role.Privilege ≠ [])
    (hfree : ∀ p ∈ role.Privilege, ',' ∉ p.data)
    (hmem : RoleMembershipEntitlement ∉ role.Privilege) :
    (b.Entitlements r).err = none ∧
    (b.Entitlements r).items.length = 1 + role.Privilege.length ∧
    ((b.Entitlements r).items.filter (fun e => e.slug = "member")).length = 1 := by
  obtain ⟨profile, ht, hp⟩ := roleResource_payload role r hr
  rw [roleEntitlements_eq b r profile _ ht hp, Split_Join role.Privilege hne hfree]
  refine ⟨rfl, by simp [Result.done]; omega, ?_⟩
  have hnone : ∀ (xs : List String), RoleMembershipEntitlement ∉ xs →
      (xs.map (fun p => NewPermissionEntitlement r p
        [ WithGrantableTo [userResourceType, groupResourceType],
          WithDisplayName ("Role " ++ r.displayName ++ " " ++ p),
          WithEntitlementDescription
            ("Role " ++ r.displayName ++ " privilege " ++ p ++ " in vCenter Server") ])).filter
        (fun e => e.slug = "member") = [] := by
    intro xs hx
    rw [List.filter_eq_nil_iff]
    intro e he
    obtain ⟨p, hpx, rfl⟩ := List.mem_map.mp he
    have hpm : p ≠ "member" := by
      intro e
      rw [e] at hpx
      exact hx hpx
    simpa [NewPermissionEntitlement, WithGrantableTo, WithDisplayName,
      WithEntitlementDescription] using hpm
  have hhead : (NewAssignmentEntitlement r RoleMembershipEntitlement
      [ WithGrantableTo [userResourceType, groupResourceType],
        WithDisplayName ("Role " ++ r.displayName ++ " " ++ RoleMembershipEntitlement),
        WithEntitlementDescription
          ("Role " ++ r.displayName ++ " membership in vCenter Server") ]).slug = "member" := rfl
  simp only [Result.done]
  rw [List.filter_cons_of_pos (by simpa using hhead), hnone _ hmem]
  rfl

/-- Witness for C2 (amended): the role `Admin` with two privileges has three
entitlements, one of them with slug `member`. -/
theorem roleEntitlements_count_witness :
    ((newRoleBuilder emptyClient).Entitlements adminResource).err = none ∧
    ((newRoleBuilder emptyClient).Entitlements adminResource).items.length = 1 + 2 ∧
    (((newRoleBuilder emptyClient).Entitlements adminResource).items.filter
      (fun e => e.slug = "member")).length = 1 :=
  roleEntitlements_count (newRoleBuilder emptyClient) adminRole adminResource rfl (by decide)
    (by decide) (by decide)

/-- C7: for every group resource, `groupBuilder.Entitlements` returns without
error exactly one entitlement: an assignment entitlement with slug `member`,
grantable to the user resource type only, named `Group <displayName> member`,
on that group resource. -/
theorem groupEntitlements_single (g : groupBuilder) (resource : Resource) :
    ∃ e, g.Entitlements resource = Result.done [e] ∧
      (g.Entitlements resource).err = none ∧
      (g.Entitlements resource).items.length = 1 ∧
      e.slug = "member" ∧
      e.purpose = .PURPOSE_VALUE_ASSIGNMENT ∧
      e.grantableTo = [userResourceType] ∧
      e.displayName = "Group " ++ resource.displayName ++ " member" ∧
      e.resource = resource ∧
      e.id = resource.id.resourceType ++ ":" ++ resource.id.resource ++ ":" ++ "member" :=
  ⟨_, rfl, rfl, rfl, rfl, rfl, rfl,
    by
      show "Group " ++ resource.displayName ++ " " ++ "member" = _
      rw [String.append_assoc _ " " "member"]
      rfl,
    rfl, rfl⟩

/-- C9: `userResource` succeeds on every user record; the status of the
resource is Disabled exactly when the record is disabled or locked, and
Enabled otherwise; resource id and display name are the principal name. -/
theorem userResource_status (user : AdminPersonUser) :
    ∃ r status, userResource user = .ok r ∧
      r.userStatus = some status ∧
      (status = .STATUS_DISABLED ↔ (user.Disabled = true ∨ user.Locked = true)) ∧
      (status = .STATUS_ENABLED ↔ ¬ (user.Disabled = true ∨ user.Locked = true)) ∧
      r.id = { resourceType := "user", resource := user.Id.Name } ∧
      r.displayName = user.Id.Name := by
  refine ⟨_, if user.Disabled || user.Locked then .STATUS_DISABLED else .STATUS_ENABLED,
    rfl, rfl, ?_, ?_, rfl, rfl⟩
  · cases user.Disabled <;> cases user.Locked <;> simp
  · cases user.Disabled <;> cases user.Locked <;> simp

/-- C3 (counterexample): for the role whose single privilege is called
`member`, the id parses, the `privileges` field is present, and the
entitlement the grant refers to, `role:7:member`, is also the id of the
permission entitlement that `roleBuilder.Entitlements` returns for that
privilege. -/
theorem roleGrants_member_counterexample :
    ∃ r, roleResource memberPrivRole = .ok r ∧
      ParseInt r.id.resource 32 = .ok 7 ∧
      r.privilegesPayload = some "member" ∧
      ((newRoleBuilder (clientWithPermissions [userPerm "alice"])).Grants r).items.map
          (fun g => g.entitlement.id) = ["role:7:member"] ∧
      ((newRoleBuilder (clientWithPermissions [userPerm "alice"])).Entitlements r).items.map
          (fun e => (e.purpose, e.id))
        = [ (.PURPOSE_VALUE_ASSIGNMENT, "role:7:member"),
            (.PURPOSE_VALUE_PERMISSION, "role:7:member") ] :=
  ⟨_, rfl, rfl, by decide, by decide, by decide⟩

/-- C3 (amended): for a role resource whose id parses as an `int32` and whose
trait has a `privileges` string, and any list of permission records answered
by the authorization manager, `roleBuilder.Grants` succeeds with one grant per
record in record order; each grant refers, by id and resource, to the `member`
assignment entitlement of the role (the first entitlement
`roleBuilder.Entitlements` returns), an id that differs from the id of every
permission entitlement whose slug is not `member`; and its principal has type
`group` when the record's group flag is set and `user` otherwise, a type the
`member` entitlement is grantable to. -/
theorem roleGrants_member (b : roleBuilder) (resource : Resource) (n : Int) (profile : Profile)
    (payload : String) (perms : List Permission)
    (hid : ParseInt resource.id.resource 32 = .ok n)
    (ht : GetRoleTrait resource = .ok profile)
    (hp : GetProfileStringValue profile "privileges" = some payload)
    (hperm : b.client.RetrieveRolePermissions n = .ok perms) :
    (b.Grants resource).err = none ∧
    (b.Grants resource).items.length = perms.length ∧
    (b.Grants resource).items.map
        (fun g => (g.entitlement.id, g.entitlement.resource, g.principal.id))
      = perms.map (fun q =>
          (NewEntitlementID resource RoleMembershipEntitlement, resource,
            ({ resourceType := if q.Group then "group" else "user",
               resource := q.Principal } : ResourceId))) ∧
    ∃ e rest, (b.Entitlements resource).items = e :: rest ∧
      e.slug = "member" ∧
      e.purpose = .PURPOSE_VALUE_ASSIGNMENT ∧
      e.grantableTo = [userResourceType, groupResourceType] ∧
      (∀ e2 ∈ rest, e2.purpose = .PURPOSE_VALUE_PERMISSION) ∧
      ∀ g ∈ (b.Grants resource).items,
        g.entitlement.id = e.id ∧
        g.entitlement.resource = e.resource ∧
        g.principal.id.resourceType ∈ e.grantableTo.map (fun t => t.id) ∧
        ∀ e2 ∈ rest, e2.slug ≠ "member" → g.entitlement.id ≠ e2.id := by
  rw [roleGrants_eq b resource n profile payload perms hid ht hp hperm,
    roleEntitlements_eq b resource profile payload ht hp]
  refine ⟨rfl, roleGrantsFrom_length _ _ _, ?_, _, _, rfl, rfl, rfl, rfl, ?_, ?_⟩
  · apply List.ext_getElem?
    intro k
    simp only [Result.done, List.getElem?_map, roleGrantsFrom_getElem?]
    cases perms[k]? with
    | none => rfl
    | some q => simp [roleGrant_fields]
  · intro e2 he2
    obtain ⟨p, _, rfl⟩ := List.mem_map.mp he2
    rfl
  · intro g hg
    obtain ⟨k, q, _, rfl⟩ := mem_roleGrantsFrom _ _ _ g hg
    refine ⟨rfl, rfl, ?_, ?_⟩
    · change (if q.Group then "group" else "user") ∈ ["user", "group"]
      cases q.Group <;> simp
    · intro e2 he2 hslug hidEq
      obtain ⟨p, _, rfl⟩ := List.mem_map.mp he2
      exact hslug (NewEntitlementID_inj resource _ _ hidEq).symm

/-- Witness for C3 (amended): role 10 assigned to the group `devs` and the user `alice`. -/
theorem roleGrants_member_witness :
    ((newRoleBuilder (clientWithPermissions [groupPerm "devs", userPerm "alice"])).Grants
        adminResource).items.map
        (fun g => (g.entitlement.id, g.entitlement.resource, g.principal.id))
      = [ ("role:10:member", adminResource, { resourceType := "group", resource := "devs" }),
          ("role:10:member", adminResource, { resourceType := "user", resource := "alice" }) ] :=
  (roleGrants_member (newRoleBuilder (clientWithPermissions [groupPerm "devs", userPerm "alice"]))
    adminResource 10 _ "vm.create,vm.delete" [groupPerm "devs", userPerm "alice"]
    rfl rfl rfl rfl).2.2.1

/-- C4 (counterexample): with a privilege that contains a comma the expansion
list has one entry per comma-separated piece, and for a role without
privileges it has the entry `role:-5:`; neither is the list of
`role:<id>:<privilege>` over the privileges of the role. -/
theorem roleGrants_expansion_counterexample :
    (∃ r, roleResource commaPrivRole = .ok r ∧
      ((newRoleBuilder (clientWithPermissions [userPerm "alice"])).Grants r).items.map
          Grant.expansion = [some ["role:8:a", "role:8:b"]] ∧
      commaPrivRole.Privilege.map (fun p => "role:" ++ FormatInt commaPrivRole.RoleId ++ ":" ++ p)
          ++ groupEntries [userPerm "alice"] = ["role:8:a,b"]) ∧
    (∃ r, roleResource noAccessRole = .ok r ∧
      ((newRoleBuilder (clientWithPermissions [userPerm "alice"])).Grants r).items.map
          Grant.expansion = [some ["role:-5:"]] ∧
      noAccessRole.Privilege.map (fun p => "role:" ++ FormatInt noAccessRole.RoleId ++ ":" ++ p)
          ++ groupEntries [userPerm "alice"] = []) :=
  ⟨⟨_, rfl, by decide, by decide⟩, ⟨_, rfl, by decide, by decide⟩⟩

/-- C4 (amended): for a role record with an `int32` id N and a non-empty list
P of comma-free privileges, and permission records `perms`, the grants that
`roleBuilder.Grants` returns for the resource built by `roleResource` are one
per record, and the expansion list of the k-th grant is `role:N:p` for p in P,
in order, followed by `group:<principal>:member` for every record up to and
including the k-th whose group flag is set, in record order. -/
theorem roleGrants_expansion (b : roleBuilder) (role : AuthorizationRole) (r : Resource)
    (perms : List Permission)
    (hr : roleResource role = .ok r)
    (h32 : isInt32 role.RoleId)
    (hne : role.Privilege ≠ [])
    (hfree : ∀ p ∈ role.Privilege, ',' ∉ p.data)
    (hperm : b.client.RetrieveRolePermissions role.RoleId = .ok perms) :
    (b.Grants r).err = none ∧
    (b.Grants r).items.length = perms.length ∧
    ∀ k, ((b.Grants r).items[k]?).map Grant.expansion
      = (perms[k]?).map (fun _ => some
          (role.Privilege.map (fun p => "role:" ++ FormatInt role.RoleId ++ ":" ++ p)
            ++ ((perms.take (k + 1)).filter (fun q => q.Group)).map
                (fun q => "group:" ++ q.Principal ++ ":member"))) := by
  obtain ⟨profile, ht, hp⟩ := roleResource_payload role r hr
  have hid : ParseInt r.id.resource 32 = .ok role.RoleId := by
    rw [roleResource_id role r hr]
    exact ParseInt_FormatInt _ h32
  rw [roleGrants_eq b r role.RoleId profile _ perms hid ht hp hperm,
    Split_Join role.Privilege hne hfree]
  refine ⟨rfl, roleGrantsFrom_length _ _ _, ?_⟩
  intro k
  simp only [Result.done, roleGrantsFrom_getElem?]
  cases perms[k]? with
  | none => rfl
  | some q =>
    simp only [Option.map_some', roleGrant_expansion, groupEntries, GroupMembershipEntitlement,
      append_colon_member]

/-- Witness for C4 (amended): the user `alice`, processed after the group
`devs`, gets the two privilege entries and the entry of that group. -/
theorem roleGrants_expansion_witness :
    ((newRoleBuilder (clientWithPermissions [groupPerm "devs", userPerm "alice"])).Grants
        adminResource).items[1]?.map Grant.expansion
      = some (some ["role:10:vm.create", "role:10:vm.delete", "group:devs:member"]) :=
  (roleGrants_expansion (newRoleBuilder (clientWithPermissions [groupPerm "devs", userPerm "alice"]))
    adminRole adminResource [groupPerm "devs", userPerm "alice"] rfl (by decide) (by decide)
    (by decide) rfl).2.2 1

/-- C6: for every group resource and every member list answered by the
membership query, `groupBuilder.Grants` succeeds with one grant per member in
member order; each grant refers to the `member` entitlement of the group, has
a principal of type `user` whose id is the member's name, and carries no
annotation, hence no expansion. -/
theorem groupGrants_members (g : groupBuilder) (resource : Resource) (sso : SsoClient)
    (members : List AdminUser)
    (hc : g.client.ssoNewClient = .ok sso)
    (hm : sso.FindUsersInGroup resource.id.resource "*" = .ok members) :
    (g.Grants resource).err = none ∧
    (g.Grants resource).items.length = members.length ∧
    (g.Grants resource).items.map
        (fun gr => (gr.entitlement.id, gr.entitlement.resource, gr.principal.id,
          gr.expansion, gr.annos))
      = members.map (fun m =>
          (NewEntitlementID resource GroupMembershipEntitlement, resource,
            ({ resourceType := "user", resource := m.Id.Name } : ResourceId),
            (none : Option (List String)), ([] : List Anno))) ∧
    ∃ e, (g.Entitlements resource).items = [e] ∧
      e.slug = "member" ∧
      ∀ gr ∈ (g.Grants resource).items,
        gr.entitlement.id = e.id ∧
        gr.principal.id.resourceType = "user" ∧
        gr.principal.id.resourceType ∈ e.grantableTo.map (fun t => t.id) := by
  have hg : g.Grants resource = Result.done
      (members.map (fun m => NewGrant resource GroupMembershipEntitlement
        { resourceType := "user", resource := m.Id.Name } [])) := by
    unfold groupBuilder.Grants
    simp only [hc, hm, NewResourceID]
    rw [buildAll_ok _ (fun m : AdminUser => NewGrant resource GroupMembershipEntitlement
      { resourceType := userResourceType.id, resource := m.Id.Name } []) _ (fun _ => rfl)]
    rfl
  rw [hg]
  refine ⟨rfl, by simp [Result.done], ?_, _, rfl, rfl, ?_⟩
  · simp only [Result.done, List.map_map]
    rfl
  · intro gr hgr
    obtain ⟨m, _, rfl⟩ := List.mem_map.mp hgr
    refine ⟨rfl, rfl, ?_⟩
    change "user" ∈ ["user"]
    decide

/-- Witness for C6: group `eng` with members `bob` and `carol`. -/
theorem groupGrants_members_witness :
    ((newGroupBuilder engClient).Grants engGroup).items.map
        (fun gr => (gr.entitlement.id, gr.entitlement.resource, gr.principal.id,
          gr.expansion, gr.annos))
      = [ ("group:eng:member", engGroup, { resourceType := "user", resource := "bob" }, none, []),
          ("group:eng:member", engGroup, { resourceType := "user", resource := "carol" }, none,
            []) ] :=
  (groupGrants_members (newGroupBuilder engClient) engGroup
    { emptySso with FindUsersInGroup := fun _ _ => .ok [member "bob", member "carol"] }
    [member "bob", member "carol"] rfl rfl).2.2.1

/-- C5 (counterexample): the session opens in time and the directory query
then fails with a deadline-exceeded error; `userBuilder.List`,
`groupBuilder.List` and `groupBuilder.Grants` each return that error, wrapped,
and not the empty result without error. -/
theorem directory_timeout_counterexample :
    (Error.wrapped "vmware-vcenter-connector: failed to list users"
        .deadlineExceeded).isDeadlineExceeded = true ∧
    (newUserBuilder slowQueryClient).List
      = Result.fail (.wrapped "vmware-vcenter-connector: failed to list users"
          .deadlineExceeded) ∧
    (newUserBuilder slowQueryClient).List ≠ Result.done [] ∧
    (newGroupBuilder slowQueryClient).List
      = Result.fail (.wrapped "vmware-vcenter-connector: failed to list groups"
          .deadlineExceeded) ∧
    (newGroupBuilder slowQueryClient).List ≠ Result.done [] ∧
    (newGroupBuilder slowQueryClient).Grants engGroup
      = Result.fail (.wrapped "vmware-vcenter-connector: failed to list group members"
          .deadlineExceeded) ∧
    (newGroupBuilder slowQueryClient).Grants engGroup ≠ Result.done [] :=
  ⟨rfl, rfl, by decide, rfl, by decide, rfl, by decide⟩

/-- C5 (amended): in `userBuilder.List`, `groupBuilder.List` and
`groupBuilder.Grants`, when the creation of the SSO client fails with a
deadline-exceeded error the call returns the empty result without error;
when it fails with any other error the call returns that error; and when the
directory query (`FindPersonUsers`, `FindGroups`, `FindUsersInGroup`) fails,
with a deadline-exceeded error or any other, the call returns that error
wrapped, with no items. -/
theorem directory_timeout_policy (u : userBuilder) (g : groupBuilder) (resource : Resource) :
    (∀ err, u.client.ssoNewClient = .error err → err.isDeadlineExceeded = true →
      u.List = Result.done []) ∧
    (∀ err, g.client.ssoNewClient = .error err → err.isDeadlineExceeded = true →
      g.List = Result.done [] ∧ g.Grants resource = Result.done []) ∧
    (∀ err, u.client.ssoNewClient = .error err → err.isDeadlineExceeded = false →
      u.List = Result.fail err) ∧
    (∀ err, g.client.ssoNewClient = .error err → err.isDeadlineExceeded = false →
      g.List = Result.fail err ∧ g.Grants resource = Result.fail err) ∧
    (∀ sso err, u.client.ssoNewClient = .ok sso → sso.FindPersonUsers "*" = .error err →
      u.List = Result.fail (.wrapped "vmware-vcenter-connector: failed to list users" err)) ∧
    (∀ sso err, g.client.ssoNewClient = .ok sso → sso.FindGroups "*" = .error err →
      g.List = Result.fail (.wrapped "vmware-vcenter-connector: failed to list groups" err)) ∧
    (∀ sso err, g.client.ssoNewClient = .ok sso →
      sso.FindUsersInGroup resource.id.resource "*" = .error err →
      g.Grants resource
        = Result.fail (.wrapped "vmware-vcenter-connector: failed to list group members" err)) ∧
    (∀ err : Error, (Result.fail err : Result Resource).err ≠ none ∧
      (Result.fail err : Result Grant).err ≠ none) := by
  refine ⟨?_, ?_, ?_, ?_, ?_, ?_, ?_, ?_⟩
  · intro err hc hd
    simp only [userBuilder.List, hc, hd, if_true]
  · intro err hc hd
    constructor
    · simp only [groupBuilder.List, hc, hd, if_true]
    · simp only [groupBuilder.Grants, hc, hd, if_true]
  · intro err hc hd
    simp [userBuilder.List, hc, hd]
  · intro err hc hd
    constructor
    · simp [groupBuilder.List, hc, hd]
    · simp [groupBuilder.Grants, hc, hd]
  · intro sso err hc hq
    simp only [userBuilder.List, hc, hq]
  · intro sso err hc hq
    simp only [groupBuilder.List, hc, hq]
  · intro sso err hc hq
    simp only [groupBuilder.Grants, hc, hq]
  · intro err
    exact ⟨by simp [Result.fail], by simp [Result.fail]⟩

/-- Witness for C5 (amended): a session that runs into the deadline, a session
that is refused, and a query that runs into the deadline. -/
theorem directory_timeout_policy_witness :
    (newUserBuilder slowSessionClient).List = Result.done [] ∧
    (newGroupBuilder refusedClient).Grants engGroup
      = Result.fail (.remote "ServerFaultCode: invalid credentials") ∧
    (newGroupBuilder slowQueryClient).List
      = Result.fail (.wrapped "vmware-vcenter-connector: failed to list groups"
          .deadlineExceeded) :=
  ⟨(directory_timeout_policy (newUserBuilder slowSessionClient)
      (newGroupBuilder slowSessionClient) engGroup).1 _ rfl rfl,
   ((directory_timeout_policy (newUserBuilder refusedClient)
      (newGroupBuilder refusedClient) engGroup).2.2.2.1 _ rfl rfl).2,
   (directory_timeout_policy (newUserBuilder slowQueryClient)
      (newGroupBuilder slowQueryClient) engGroup).2.2.2.2.2.1 _ _ rfl rfl⟩

/-- C8 (failing input): for every connector value, `ResourceSyncers` returns
the user builder and the role builder only; no syncer has the resource type
`group`, although the package has a group builder for that type and the
connector metadata announces users, groups and roles. -/
theorem resourceSyncers_types (vc : VMwareVCenter) :
    vc.ResourceSyncers.map (fun s => s.ResourceType.id) = ["user", "role"] ∧
    "group" ∉ vc.ResourceSyncers.map (fun s => s.ResourceType.id) ∧
    (newGroupBuilder vc.client).ResourceType.id = "group" ∧
    vc.Metadata = .ok
      { displayName := "VMwareVCenter",
        description :=
          "Connector syncing VMware vCenter Server users, groups and roles to Baton" } :=
  ⟨rfl, by change "group" ∉ ["user", "role"]; decide, rfl, rfl⟩

end connector
